import Mathlib

/-!
Shallow embedding of the BizFlow order/inventory/bookkeeping core
(`src/services/order_service.py` together with the models in
`src/infrastructure/models/`).  Monetary amounts and quantities are SQL
`Numeric` columns (exact decimals); they are embedded as rationals `ℚ`.
Database tables are embedded as lists of records and each service
operation as a pure function `DB → Except Err DB`: raising a domain
exception in Python aborts the transaction before `commit`, which the
embedding renders as returning `Except.error` and producing no successor
state.  The stock arithmetic of `confirm_order` and `cancel_order` is
computed in binary64 floats in the source (`float(...) * float(...)`);
the embedding reproduces it exactly through the correctly-rounded
binary64 model `fl53`/`requiredFloat` below.
-/

attribute [local semireducible] Rat.add Rat.mul Rat.sub Rat.inv

set_option maxRecDepth 10000

namespace BizFlow

/-- Order processing status (`domain/constants.py`, `OrderStatus`). -/
inductive OrderStatus where
  | NEW
  | CONFIRMED
  | COMPLETED
  | CANCELED
deriving DecidableEq

/-- Bookkeeping transaction types (`domain/constants.py`, `TransactionType`). -/
inductive TransactionType where
  | REVENUE
  | EXPENSE
  | DEBT_IN
  | DEBT_OUT
  | PAYMENT_IN
  | PAYMENT_OUT
  | INVENTORY_IN
  | INVENTORY_OUT
deriving DecidableEq

/-- User roles (`domain/constants.py`, `Role`). -/
inductive Role where
  | ADMIN
  | OWNER
  | EMPLOYEE
deriving DecidableEq

/-- Domain exceptions raised by the service layer (`domain/exceptions.py`).
`InternalError` stands for an uncaught Python exception (e.g. a dangling
foreign key dereference), which the controller maps to a 500 response. -/
inductive Err where
  | NotFoundError
  | AuthorizationError
  | ValidationError
  | InsufficientStockError
  | InsufficientBalanceError
  | OrderAlreadyConfirmedError
  | InternalError
deriving DecidableEq

/-- User row (`infrastructure/models/user.py`).  `store_id` is the store an
employee works at; `owned_store_ids` are the ids of the stores an owner
owns (the `owned_stores` relationship). -/
structure User where
  id : Nat
  role : Role
  store_id : Option Nat
  owned_store_ids : List Nat
deriving DecidableEq

/-- `User.can_access_store` (`user.py` lines 58-66): admins access every
store, owners the stores they own, employees their assigned store. -/
def User.can_access_store (u : User) (sid : Nat) : Bool :=
  match u.role with
  | Role.ADMIN => true
  | Role.OWNER => u.owned_store_ids.any (fun s => s == sid)
  | Role.EMPLOYEE => u.store_id == some sid

/-- Customer row with debt tracking (`infrastructure/models/customer.py`).
`debt_limit` is a nullable column; `none` or `some 0` both mean "no limit". -/
structure Customer where
  id : Nat
  store_id : Nat
  name : String
  debt_balance : ℚ
  debt_limit : Option ℚ
deriving DecidableEq

/-- `Customer.can_add_debt` (`customer.py` lines 31-35): true if the limit is
unset or zero, else `balance + amount <= limit`. -/
def Customer.can_add_debt (c : Customer) (amount : ℚ) : Bool :=
  match c.debt_limit with
  | none => true
  | some l => if l = 0 then true else decide (c.debt_balance + amount ≤ l)

/-- `Customer.add_debt` (`customer.py` lines 37-39). -/
def Customer.add_debt (c : Customer) (amount : ℚ) : Customer :=
  { c with debt_balance := c.debt_balance + amount }

/-- `Customer.reduce_debt` (`customer.py` lines 41-43):
`balance := max(0, balance - amount)`. -/
def Customer.reduce_debt (c : Customer) (amount : ℚ) : Customer :=
  { c with debt_balance := max 0 (c.debt_balance - amount) }

/-- Product row (`infrastructure/models/product.py`).  Note: there is no
stock field; stock is derived from inventory transactions. -/
structure Product where
  id : Nat
  store_id : Nat
  name : String
deriving DecidableEq

/-- Product unit row (`product.py`, `ProductUnit`): a unit of measure with a
price and a conversion factor to the product's base unit. -/
structure ProductUnit where
  id : Nat
  product_id : Nat
  price : ℚ
  conversion_factor : ℚ
deriving DecidableEq

/-- Order row (`infrastructure/models/order.py`).  `confirmed_at` carries the
abstract timestamp passed to the confirming operation. -/
structure Order where
  id : Nat
  store_id : Nat
  customer_id : Option Nat
  order_number : String
  status : OrderStatus
  is_credit : Bool
  total_amount : ℚ
  paid_amount : ℚ
  notes : Option String
  created_by_user_id : Nat
  confirmed_at : Option Nat
  confirmed_by_user_id : Option Nat
deriving DecidableEq

/-- `Order.confirm` (`order.py` lines 60-64): set status CONFIRMED and record
the confirming user and the timestamp. -/
def Order.confirm (o : Order) (user_id : Nat) (now : Nat) : Order :=
  { o with
    status := OrderStatus.CONFIRMED
    confirmed_at := some now
    confirmed_by_user_id := some user_id }

/-- `Order.cancel` (`order.py` lines 70-72): set status CANCELED. -/
def Order.cancel (o : Order) : Order :=
  { o with status := OrderStatus.CANCELED }

/-- Order line row (`order.py`, `OrderDetail`). -/
structure OrderDetail where
  order_id : Nat
  product_id : Nat
  product_unit_id : Nat
  quantity : ℚ
  unit_price : ℚ
  discount : ℚ
  line_total : ℚ
  notes : Option String
deriving DecidableEq

/-- Inventory movement row (`infrastructure/models/inventory.py`,
`InventoryTransaction`): positive `qty_change` is stock in, negative is
stock out. -/
structure InventoryTransaction where
  store_id : Nat
  product_id : Nat
  product_unit_id : Option Nat
  qty_change : ℚ
  ref_type : String
  ref_id : Option Nat
  created_by_user_id : Nat
deriving DecidableEq

/-- Ledger row (`infrastructure/models/bookkeeping.py`, `BookkeepingEntry`). -/
structure BookkeepingEntry where
  store_id : Nat
  entry_type : TransactionType
  ref_type : String
  ref_id : Nat
  amount : ℚ
  created_by_user_id : Nat
deriving DecidableEq

/-- `create_revenue_entry` (`bookkeeping.py` lines 55-68). -/
def create_revenue_entry (store_id order_id : Nat) (amount : ℚ) (user_id : Nat) :
    BookkeepingEntry :=
  { store_id := store_id
    entry_type := TransactionType.REVENUE
    ref_type := "order"
    ref_id := order_id
    amount := amount
    created_by_user_id := user_id }

/-- `create_debt_entry` (`bookkeeping.py` lines 71-84). -/
def create_debt_entry (store_id order_id : Nat) (amount : ℚ) (user_id : Nat) :
    BookkeepingEntry :=
  { store_id := store_id
    entry_type := TransactionType.DEBT_IN
    ref_type := "order"
    ref_id := order_id
    amount := amount
    created_by_user_id := user_id }

/-- The database state: one list per table touched by the order core. -/
structure DB where
  customers : List Customer
  products : List Product
  product_units : List ProductUnit
  orders : List Order
  order_details : List OrderDetail
  inventory_transactions : List InventoryTransaction
  bookkeeping_entries : List BookkeepingEntry
deriving DecidableEq

/-- `Order.query.get(order_id)`: primary-key lookup. -/
def findOrder (db : DB) (order_id : Nat) : Option Order :=
  db.orders.find? (fun o => o.id == order_id)

/-- `order.items.all()`: the details belonging to an order. -/
def orderItems (db : DB) (order_id : Nat) : List OrderDetail :=
  db.order_details.filter (fun d => d.order_id == order_id)

/-- `ProductUnit.query.get` / the `item.product_unit` relationship. -/
def getUnit (db : DB) (unit_id : Nat) : Option ProductUnit :=
  db.product_units.find? (fun pu => pu.id == unit_id)

/-- `Product.query.get` / the `item.product` relationship. -/
def getProduct (db : DB) (product_id : Nat) : Option Product :=
  db.products.find? (fun p => p.id == product_id)

/-- `Customer.query.get` / the `order.customer` relationship. -/
def getCustomer (db : DB) (customer_id : Nat) : Option Customer :=
  db.customers.find? (fun c => c.id == customer_id)

/-- `Product.current_stock` (`product.py` lines 32-41): the sum of
`qty_change` over all inventory transactions with this `product_id`.
The query filters only on `product_id` — it has no store filter. -/
def current_stock (db : DB) (product_id : Nat) : ℚ :=
  ((db.inventory_transactions.filter (fun t => t.product_id == product_id)).map
    (fun t => t.qty_change)).sum

/-- `get_product_stock` (`inventory.py` lines 53-61): the sum of `qty_change`
over the inventory transactions with this `store_id` and `product_id`. -/
def get_product_stock (db : DB) (store_id product_id : Nat) : ℚ :=
  ((db.inventory_transactions.filter
      (fun t => t.store_id == store_id && t.product_id == product_id)).map
    (fun t => t.qty_change)).sum

/-- The error discharged by a failed operation, if any (used to state
which exception a concrete run raises). -/
def thrown : Except Err DB → Option Err
  | Except.error e => some e
  | Except.ok _ => none

/-- Round a rational to the nearest integer, ties to even (the IEEE-754
default rounding used by Python floats). -/
def roundHalfEven (x : ℚ) : ℤ :=
  let n := ⌊x⌋
  let r := x - n
  if r < 1/2 then n
  else if 1/2 < r then n + 1
  else if n % 2 = 0 then n else n + 1

/-- Scale a positive rational by powers of two until it lies in
`[2^52, 2^53)`, returning the scaled value together with the accumulated
power of two.  The fuel bound 2200 covers the full binary64 exponent
range. -/
def flScale : Nat → ℚ → ℚ → ℚ × ℚ
  | 0, x, p => (x, p)
  | fuel + 1, x, p =>
    if x < 4503599627370496 then flScale fuel (x * 2) (p * 2)
    else if 9007199254740992 ≤ x then flScale fuel (x / 2) (p / 2)
    else (x, p)

/-- Correctly rounded binary64 value of a rational (round to nearest, ties
to even; subnormals and overflow do not arise for the magnitudes handled
here).  This is the exact value of Python's `float(Decimal(...))`. -/
def fl53 (x : ℚ) : ℚ :=
  if x = 0 then 0
  else if x < 0 then
    match flScale 2200 (-x) 1 with
    | (m, p) => -((roundHalfEven m : ℚ) / p)
  else
    match flScale 2200 x 1 with
    | (m, p) => (roundHalfEven m : ℚ) / p

/-- The value `required = float(item.quantity) * float(item.product_unit.conversion_factor)`
computed by `confirm_order` (`order_service.py` lines 129, 138) and by
`cancel_order` (line 200): both exact decimals are converted to binary64
and the product is rounded to binary64 again. -/
def requiredFloat (quantity conversion_factor : ℚ) : ℚ :=
  fl53 (fl53 quantity * fl53 conversion_factor)

/-- One entry of the `items` argument to `create_order`
(`order_service.py` line 36: product_unit_id, quantity, unit_price?,
discount?, notes?). -/
structure ItemInput where
  product_unit_id : Nat
  quantity : ℚ
  unit_price : Option ℚ
  discount : Option ℚ
  notes : Option String
deriving DecidableEq

/-- The item loop of `OrderService.create_order` (`order_service.py`
lines 73-99): resolve each product unit (NotFound if missing), check the
product belongs to the store (ValidationError otherwise), build the
`OrderDetail` with `line_total = quantity*unit_price - discount`, and
accumulate the order total.  There is no check on the sign of the
quantity. -/
def buildDetails (db : DB) (store_id order_id : Nat) :
    List ItemInput → Except Err (List OrderDetail × ℚ)
  | [] => Except.ok ([], 0)
  | item :: rest =>
    match getUnit db item.product_unit_id with
    | none => Except.error Err.NotFoundError
    | some product_unit =>
      match getProduct db product_unit.product_id with
      | none => Except.error Err.InternalError
      | some product =>
        if product.store_id ≠ store_id then Except.error Err.ValidationError
        else
          let quantity := item.quantity
          let unit_price := item.unit_price.getD product_unit.price
          let discount := item.discount.getD 0
          let line_total := quantity * unit_price - discount
          let detail : OrderDetail :=
            { order_id := order_id
              product_id := product.id
              product_unit_id := product_unit.id
              quantity := quantity
              unit_price := unit_price
              discount := discount
              line_total := line_total
              notes := item.notes }
          match buildDetails db store_id order_id rest with
          | Except.error e => Except.error e
          | Except.ok (details, total) => Except.ok (detail :: details, line_total + total)

/-- `OrderService.create_order` (`order_service.py` lines 21-107).
`new_order_id` and `order_number` stand for the id the database assigns at
flush time and the number produced by `generate_order_number` (both are
opaque identity data for the claims considered here).  Raising any
exception before `commit` leaves the database unchanged, so the error
branches return no successor state. -/
def create_order (db : DB) (store_id : Nat) (items : List ItemInput)
    (current_user : User) (customer_id : Option Nat) (is_credit : Bool)
    (notes : Option String) (new_order_id : Nat) (order_number : String) :
    Except Err (DB × Order) :=
  if ¬ current_user.can_access_store store_id then Except.error Err.AuthorizationError
  else
    -- Validate customer if provided: the lookup is filtered by both the
    -- customer id and the order's store id (line 50).
    let customerLookup : Except Err (Option Customer) :=
      match customer_id with
      | none => Except.ok none
      | some cid =>
        match db.customers.find? (fun c => c.id == cid && c.store_id == store_id) with
        | none => Except.error Err.NotFoundError
        | some c => Except.ok (some c)
    match customerLookup with
    | Except.error e => Except.error e
    | Except.ok customer =>
      if is_credit ∧ customer.isNone then Except.error Err.ValidationError
      else
        match buildDetails db store_id new_order_id items with
        | Except.error e => Except.error e
        | Except.ok (details, total) =>
          let order : Order :=
            { id := new_order_id
              store_id := store_id
              customer_id := customer_id
              order_number := order_number
              status := OrderStatus.NEW
              is_credit := is_credit
              total_amount := total
              paid_amount := if ¬ is_credit then total else 0
              notes := notes
              created_by_user_id := current_user.id
              confirmed_at := none
              confirmed_by_user_id := none }
          Except.ok
            ({ db with
                orders := db.orders ++ [order]
                order_details := db.order_details ++ details },
              order)

/-- The stock-availability loop of `confirm_order` (`order_service.py`
lines 126-134): for every line,
`required = float(quantity) * float(conversion_factor)` — a binary64
product, embedded by `requiredFloat` — and the comparison
`current_stock < required` (Python compares the exact Decimal with the
float value exactly) aborts with InsufficientStock.  A dangling
product/unit reference would crash Python (`InternalError`). -/
def check_stock (db : DB) : List OrderDetail → Except Err Unit
  | [] => Except.ok ()
  | item :: rest =>
    match getProduct db item.product_id, getUnit db item.product_unit_id with
    | some _, some product_unit =>
      let stock := current_stock db item.product_id
      let required := requiredFloat item.quantity product_unit.conversion_factor
      if stock < required then Except.error Err.InsufficientStockError
      else check_stock db rest
    | _, _ => Except.error Err.InternalError

/-- The stock-out record built for one line during confirmation
(`order_service.py` lines 138-149): `qty_change = -qty_base` where
`qty_base = float(quantity) * float(conversion_factor)` is the binary64
product (`requiredFloat`). -/
def stock_out_transaction (order : Order) (user_id : Nat) (item : OrderDetail)
    (product_unit : ProductUnit) : InventoryTransaction :=
  { store_id := order.store_id
    product_id := item.product_id
    product_unit_id := some item.product_unit_id
    qty_change := -(requiredFloat item.quantity product_unit.conversion_factor)
    ref_type := "order"
    ref_id := some order.id
    created_by_user_id := user_id }

/-- The inventory-deduction loop of `confirm_order` (`order_service.py`
lines 136-150): one negative movement per line. -/
def deduct_inventory (db : DB) (order : Order) (user_id : Nat) :
    List OrderDetail → Except Err (List InventoryTransaction)
  | [] => Except.ok []
  | item :: rest =>
    match getUnit db item.product_unit_id with
    | none => Except.error Err.InternalError
    | some product_unit =>
      match deduct_inventory db order user_id rest with
      | Except.error e => Except.error e
      | Except.ok ts => Except.ok (stock_out_transaction order user_id item product_unit :: ts)

/-- Replace the customer row with the given id (the in-place mutation of
`order.customer` followed by commit). -/
def updateCustomer (customers : List Customer) (cid : Nat) (f : Customer → Customer) :
    List Customer :=
  customers.map (fun c => if c.id == cid then f c else c)

/-- Replace the order row with the given id (the in-place mutation of
`order` followed by commit). -/
def updateOrder (orders : List Order) (oid : Nat) (f : Order → Order) : List Order :=
  orders.map (fun o => if o.id == oid then f o else o)

/-- `OrderService.confirm_order` (`order_service.py` lines 109-181):
look up the order, check store access, require status NEW
(`OrderAlreadyConfirmedError` otherwise), run the all-lines stock check,
then write one stock-out movement per line, one ledger entry (debt-in for a
credit sale, revenue otherwise), add the total to the customer's debt
balance for a credit sale, and mark the order CONFIRMED.  `now` is the
timestamp taken at confirmation.  The stock arithmetic follows the
source's binary64 computation (`float(...) * float(...)`), embedded as
`requiredFloat`. -/
def confirm_order (db : DB) (order_id : Nat) (current_user : User) (now : Nat) :
    Except Err DB :=
  match findOrder db order_id with
  | none => Except.error Err.NotFoundError
  | some order =>
    if ¬ current_user.can_access_store order.store_id then
      Except.error Err.AuthorizationError
    else if order.status ≠ OrderStatus.NEW then
      Except.error Err.OrderAlreadyConfirmedError
    else
      let items := orderItems db order_id
      match check_stock db items with
      | Except.error e => Except.error e
      | Except.ok () =>
        match deduct_inventory db order current_user.id items with
        | Except.error e => Except.error e
        | Except.ok ts =>
          let entry :=
            if order.is_credit then
              create_debt_entry order.store_id order.id order.total_amount current_user.id
            else
              create_revenue_entry order.store_id order.id order.total_amount current_user.id
          let customers :=
            if order.is_credit then
              match order.customer_id.bind (getCustomer db) with
              | some customer =>
                updateCustomer db.customers customer.id
                  (fun c => c.add_debt order.total_amount)
              | none => db.customers
            else db.customers
          Except.ok
            { db with
              customers := customers
              orders := updateOrder db.orders order_id
                (fun o => o.confirm current_user.id now)
              inventory_transactions := db.inventory_transactions ++ ts
              bookkeeping_entries := db.bookkeeping_entries ++ [entry] }

/-- The stock-restore record built for one line during cancellation of a
confirmed order (`order_service.py` lines 200-211): `qty_change` is the
same binary64 product `float(quantity) * float(conversion_factor)`
(`requiredFloat`) as the original deduction, with positive sign. -/
def stock_in_transaction (order : Order) (user_id : Nat) (item : OrderDetail)
    (product_unit : ProductUnit) : InventoryTransaction :=
  { store_id := order.store_id
    product_id := item.product_id
    product_unit_id := some item.product_unit_id
    qty_change := requiredFloat item.quantity product_unit.conversion_factor
    ref_type := "order_cancel"
    ref_id := some order.id
    created_by_user_id := user_id }

/-- The inventory-restore loop of `cancel_order` (`order_service.py`
lines 199-212): one positive movement per line. -/
def restore_inventory (db : DB) (order : Order) (user_id : Nat) :
    List OrderDetail → Except Err (List InventoryTransaction)
  | [] => Except.ok []
  | item :: rest =>
    match getUnit db item.product_unit_id with
    | none => Except.error Err.InternalError
    | some product_unit =>
      match restore_inventory db order user_id rest with
      | Except.error e => Except.error e
      | Except.ok ts => Except.ok (stock_in_transaction order user_id item product_unit :: ts)

/-- The reason-append step of `cancel_order` (`order_service.py`
lines 219-220): if a reason is given, append it to the order's notes. -/
def apply_cancel_reason (reason : Option String) (o : Order) : Order :=
  match reason with
  | none => o
  | some r => { o with notes := some ((o.notes.getD "") ++ "\nLý do hủy: " ++ r) }

/-- `OrderService.cancel_order` (`order_service.py` lines 183-223):
look up the order, check store access, reject COMPLETED orders
(`ValidationError`); if the order is CONFIRMED, write one compensating
positive movement per line and, for a credit sale with a customer, reduce
the customer's debt by the order total (clamped at zero); in every
non-rejected case set the status to CANCELED and append the optional
reason to the notes. -/
def cancel_order (db : DB) (order_id : Nat) (current_user : User)
    (reason : Option String) : Except Err DB :=
  match findOrder db order_id with
  | none => Except.error Err.NotFoundError
  | some order =>
    if ¬ current_user.can_access_store order.store_id then
      Except.error Err.AuthorizationError
    else if order.status = OrderStatus.COMPLETED then
      Except.error Err.ValidationError
    else
      let restoresE : Except Err (List InventoryTransaction) :=
        if order.status = OrderStatus.CONFIRMED then
          restore_inventory db order current_user.id (orderItems db order_id)
        else Except.ok []
      match restoresE with
      | Except.error e => Except.error e
      | Except.ok ts =>
        let customers :=
          if order.status = OrderStatus.CONFIRMED then
            if order.is_credit then
              match order.customer_id.bind (getCustomer db) with
              | some customer =>
                updateCustomer db.customers customer.id
                  (fun c => c.reduce_debt order.total_amount)
              | none => db.customers
            else db.customers
          else db.customers
        Except.ok
          { db with
            customers := customers
            orders := updateOrder db.orders order_id
              (fun o => apply_cancel_reason reason o.cancel)
            inventory_transactions := db.inventory_transactions ++ ts }


/-! Concrete fixtures used by the witness and counterexample theorems. -/

/-- An admin user: `can_access_store` is true for every store. -/
def exUser : User := { id := 1, role := Role.ADMIN, store_id := none, owned_store_ids := [] }

/-- A product of store 1. -/
def exProduct : Product := { id := 1, store_id := 1, name := "cement" }

/-- The base unit of `exProduct`, price 10, conversion factor 1. -/
def exUnit : ProductUnit := { id := 1, product_id := 1, price := 10, conversion_factor := 1 }

/-- A customer of store 1 with balance 5 and no debt limit. -/
def exCustomer8 : Customer :=
  { id := 1, store_id := 1, name := "c8", debt_balance := 5, debt_limit := none }

/-- A customer of store 2 (used to probe store scoping of the lookup). -/
def exCustomer10 : Customer :=
  { id := 7, store_id := 2, name := "c10", debt_balance := 0, debt_limit := none }

/-- Database for the C10 witness: its only customer belongs to store 2. -/
def c10db : DB :=
  { customers := [exCustomer10], products := [exProduct], product_units := [exUnit]
    orders := [], order_details := [], inventory_transactions := []
    bookkeeping_entries := [] }

/-- A NEW cash order of store 1 for 5 base units of product 1 (total 50). -/
def c1order : Order :=
  { id := 1, store_id := 1, customer_id := none, order_number := "ORD0010001"
    status := OrderStatus.NEW, is_credit := false, total_amount := 50, paid_amount := 50
    notes := none, created_by_user_id := 1, confirmed_at := none
    confirmed_by_user_id := none }

/-- The single line of `c1order`: 5 units of product 1 at price 10. -/
def c1detail : OrderDetail :=
  { order_id := 1, product_id := 1, product_unit_id := 1, quantity := 5, unit_price := 10
    discount := 0, line_total := 50, notes := none }

/-- Database for the C1 witness: only 3 base units in stock, order needs 5. -/
def c1db : DB :=
  { customers := [], products := [exProduct], product_units := [exUnit]
    orders := [c1order], order_details := [c1detail]
    inventory_transactions :=
      [{ store_id := 1, product_id := 1, product_unit_id := none, qty_change := 3
         ref_type := "import", ref_id := none, created_by_user_id := 1 }]
    bookkeeping_entries := [] }

/-- A customer of store 1 with balance 20 and no debt limit. -/
def c2customer : Customer :=
  { id := 1, store_id := 1, name := "c2", debt_balance := 20, debt_limit := none }

/-- A NEW credit order of store 1 for customer 1, total 50. -/
def c2order : Order :=
  { id := 1, store_id := 1, customer_id := some 1, order_number := "ORD0010002"
    status := OrderStatus.NEW, is_credit := true, total_amount := 50, paid_amount := 0
    notes := none, created_by_user_id := 1, confirmed_at := none
    confirmed_by_user_id := none }

/-- Database for the C2 witness: 10 base units in stock, order needs 5. -/
def c2db : DB :=
  { customers := [c2customer], products := [exProduct], product_units := [exUnit]
    orders := [c2order], order_details := [c1detail]
    inventory_transactions :=
      [{ store_id := 1, product_id := 1, product_unit_id := none, qty_change := 10
         ref_type := "import", ref_id := none, created_by_user_id := 1 }]
    bookkeeping_entries := [] }

/-- A customer of store 1 with balance 30 and no debt limit. -/
def c4customer : Customer :=
  { id := 1, store_id := 1, name := "c4", debt_balance := 30, debt_limit := none }

/-- A CONFIRMED credit order of store 1 for customer 1, total 50. -/
def c4order : Order :=
  { id := 1, store_id := 1, customer_id := some 1, order_number := "ORD0010004"
    status := OrderStatus.CONFIRMED, is_credit := true, total_amount := 50
    paid_amount := 0, notes := none, created_by_user_id := 1, confirmed_at := some 1
    confirmed_by_user_id := some 1 }

/-- Database for the C4 witness: a confirmed credit order whose customer owes
30, less than the order total 50. -/
def c4db : DB :=
  { customers := [c4customer], products := [exProduct], product_units := [exUnit]
    orders := [c4order], order_details := [c1detail]
    inventory_transactions :=
      [{ store_id := 1, product_id := 1, product_unit_id := none, qty_change := 5
         ref_type := "import", ref_id := none, created_by_user_id := 1 }]
    bookkeeping_entries := [] }

/-- A NEW cash order of store 1, total 30 (3 base units of product 1). -/
def c3order : Order :=
  { id := 1, store_id := 1, customer_id := none, order_number := "ORD0010003"
    status := OrderStatus.NEW, is_credit := false, total_amount := 30, paid_amount := 30
    notes := none, created_by_user_id := 1, confirmed_at := none
    confirmed_by_user_id := none }

/-- The single line of `c3order`: 3 units of product 1 at price 10. -/
def c3detail : OrderDetail :=
  { order_id := 1, product_id := 1, product_unit_id := 1, quantity := 3, unit_price := 10
    discount := 0, line_total := 30, notes := none }

/-- Database for the C3 counterexample: the only movement of product 1 (5
units) is recorded under store 2, while the order lives in store 1. -/
def c3db : DB :=
  { customers := [], products := [exProduct], product_units := [exUnit]
    orders := [c3order], order_details := [c3detail]
    inventory_transactions :=
      [{ store_id := 2, product_id := 1, product_unit_id := none, qty_change := 5
         ref_type := "import", ref_id := none, created_by_user_id := 1 }]
    bookkeeping_entries := [] }

/-- A customer of store 1 with balance 50 and debt limit 100. -/
def c5customer : Customer :=
  { id := 1, store_id := 1, name := "c5", debt_balance := 50, debt_limit := some 100 }

/-- A NEW credit order of store 1 for customer 1, total 60. -/
def c5order : Order :=
  { id := 1, store_id := 1, customer_id := some 1, order_number := "ORD0010005"
    status := OrderStatus.NEW, is_credit := true, total_amount := 60, paid_amount := 0
    notes := none, created_by_user_id := 1, confirmed_at := none
    confirmed_by_user_id := none }

/-- The single line of `c5order`: 1 unit of product 1 at price 60. -/
def c5detail : OrderDetail :=
  { order_id := 1, product_id := 1, product_unit_id := 1, quantity := 1, unit_price := 60
    discount := 0, line_total := 60, notes := none }

/-- Database for the C5 theorem: ample stock, but confirming the order would
push the customer's balance to 110, over the limit of 100. -/
def c5db : DB :=
  { customers := [c5customer], products := [exProduct], product_units := [exUnit]
    orders := [c5order], order_details := [c5detail]
    inventory_transactions :=
      [{ store_id := 1, product_id := 1, product_unit_id := none, qty_change := 10
         ref_type := "import", ref_id := none, created_by_user_id := 1 }]
    bookkeeping_entries := [] }

/-- An already-CANCELED order of store 1. -/
def c6order : Order :=
  { id := 1, store_id := 1, customer_id := none, order_number := "ORD0010006"
    status := OrderStatus.CANCELED, is_credit := false, total_amount := 0
    paid_amount := 0, notes := none, created_by_user_id := 1, confirmed_at := none
    confirmed_by_user_id := none }

/-- Database holding only the already-CANCELED order. -/
def c6db : DB :=
  { customers := [], products := [], product_units := [], orders := [c6order]
    order_details := [], inventory_transactions := [], bookkeeping_entries := [] }

/-- A COMPLETED order of store 1. -/
def c6done_order : Order :=
  { id := 1, store_id := 1, customer_id := none, order_number := "ORD0010007"
    status := OrderStatus.COMPLETED, is_credit := false, total_amount := 0
    paid_amount := 0, notes := none, created_by_user_id := 1, confirmed_at := none
    confirmed_by_user_id := none }

/-- Database holding only the COMPLETED order. -/
def c6done_db : DB :=
  { customers := [], products := [], product_units := [], orders := [c6done_order]
    order_details := [], inventory_transactions := [], bookkeeping_entries := [] }

/-- A movement of product 1 recorded under store 2 (used to probe store
scoping of the stock queries). -/
def c3foreign : InventoryTransaction :=
  { store_id := 2, product_id := 1, product_unit_id := none, qty_change := 7
    ref_type := "import", ref_id := none, created_by_user_id := 1 }

/-- Database for the C9 theorem: a product and unit of store 1 and nothing
else. -/
def c9db : DB :=
  { customers := [], products := [exProduct], product_units := [exUnit], orders := []
    order_details := [], inventory_transactions := [], bookkeeping_entries := [] }

/-- The item list for C9: a single line with quantity -1. -/
def c9items : List ItemInput :=
  [{ product_unit_id := 1, quantity := -1, unit_price := none, discount := none
     notes := none }]

/-- A unit of product 1 with the schema-valid conversion factor 3162.3089
(`Numeric(10,4)`). -/
def c1xunit : ProductUnit :=
  { id := 2, product_id := 1, price := 1, conversion_factor := 31623089/10000 }

/-- A NEW cash order of store 1 whose single line uses `c1xunit`. -/
def c1xorder : Order :=
  { id := 1, store_id := 1, customer_id := none, order_number := "ORD0010011"
    status := OrderStatus.NEW, is_credit := false, total_amount := 1, paid_amount := 1
    notes := none, created_by_user_id := 1, confirmed_at := none
    confirmed_by_user_id := none }

/-- The line of `c1xorder`: quantity 316227.7899 (`Numeric(15,4)`) in unit 2. -/
def c1xdetail : OrderDetail :=
  { order_id := 1, product_id := 1, product_unit_id := 2, quantity := 3162277899/10000
    unit_price := 1, discount := 0, line_total := 1, notes := none }

/-- Database for the C1 counterexample: stock 1000009954.4281, exactly below
the exact base-unit requirement of the order but above the binary64 one. -/
def c1xdb : DB :=
  { customers := [], products := [exProduct], product_units := [c1xunit]
    orders := [c1xorder], order_details := [c1xdetail]
    inventory_transactions :=
      [{ store_id := 1, product_id := 1, product_unit_id := none
         qty_change := 10000099544281/10000
         ref_type := "import", ref_id := none, created_by_user_id := 1 }]
    bookkeeping_entries := [] }

/-- A unit of product 1 with conversion factor 3. -/
def c2xunit : ProductUnit :=
  { id := 1, product_id := 1, price := 10, conversion_factor := 3 }

/-- A NEW cash order of store 1 whose single line uses `c2xunit`. -/
def c2xorder : Order :=
  { id := 1, store_id := 1, customer_id := none, order_number := "ORD0010012"
    status := OrderStatus.NEW, is_credit := false, total_amount := 1, paid_amount := 1
    notes := none, created_by_user_id := 1, confirmed_at := none
    confirmed_by_user_id := none }

/-- The line of `c2xorder` (also reused canceled in `c4xdb`): quantity 0.1 in
the factor-3 unit, so the exact base-unit requirement is 0.3. -/
def c2xdetail : OrderDetail :=
  { order_id := 1, product_id := 1, product_unit_id := 1, quantity := 1/10
    unit_price := 10, discount := 0, line_total := 1, notes := none }

/-- Database for the C2 counterexample: stock exactly 0.3, matching the exact
requirement of the order's only line. -/
def c2xdb : DB :=
  { customers := [], products := [exProduct], product_units := [c2xunit]
    orders := [c2xorder], order_details := [c2xdetail]
    inventory_transactions :=
      [{ store_id := 1, product_id := 1, product_unit_id := none, qty_change := 3/10
         ref_type := "import", ref_id := none, created_by_user_id := 1 }]
    bookkeeping_entries := [] }

/-- A CONFIRMED cash order of store 1 whose single line is `c2xdetail`. -/
def c4xorder : Order :=
  { id := 1, store_id := 1, customer_id := none, order_number := "ORD0010013"
    status := OrderStatus.CONFIRMED, is_credit := false, total_amount := 1
    paid_amount := 1, notes := none, created_by_user_id := 1, confirmed_at := some 1
    confirmed_by_user_id := some 1 }

/-- Database for the C4 counterexample: a confirmed order with the
quantity-0.1, factor-3 line, about to be canceled. -/
def c4xdb : DB :=
  { customers := [], products := [exProduct], product_units := [c2xunit]
    orders := [c4xorder], order_details := [c2xdetail]
    inventory_transactions := [], bookkeeping_entries := [] }

/-! Helper lemmas about the embedding. -/

theorem find?_updateCustomer (cs : List Customer) (cid : Nat) (f : Customer → Customer)
    (hf : ∀ c, (f c).id = c.id) (c : Customer)
    (h : cs.find? (fun x => x.id == cid) = some c) :
    (updateCustomer cs cid f).find? (fun x => x.id == cid) = some (f c) := by
  induction cs with
  | nil => simp [List.find?] at h
  | cons a l ih =>
    by_cases hpa : a.id = cid
    · rw [List.find?_cons_of_pos _ (by simpa using hpa)] at h
      cases h
      rw [updateCustomer, List.map_cons, if_pos (by simpa using hpa)]
      exact List.find?_cons_of_pos _ (by simp [hf, hpa])
    · rw [List.find?_cons_of_neg _ (by simpa using hpa)] at h
      rw [updateCustomer, List.map_cons, if_neg (by simpa using hpa)]
      rw [List.find?_cons_of_neg _ (by simpa using hpa)]
      exact ih h

theorem find?_updateOrder (os : List Order) (oid : Nat) (f : Order → Order)
    (hf : ∀ o, (f o).id = o.id) (o : Order)
    (h : os.find? (fun x => x.id == oid) = some o) :
    (updateOrder os oid f).find? (fun x => x.id == oid) = some (f o) := by
  induction os with
  | nil => simp [List.find?] at h
  | cons a l ih =>
    by_cases hpa : a.id = oid
    · rw [List.find?_cons_of_pos _ (by simpa using hpa)] at h
      cases h
      rw [updateOrder, List.map_cons, if_pos (by simpa using hpa)]
      exact List.find?_cons_of_pos _ (by simp [hf, hpa])
    · rw [List.find?_cons_of_neg _ (by simpa using hpa)] at h
      rw [updateOrder, List.map_cons, if_neg (by simpa using hpa)]
      rw [List.find?_cons_of_neg _ (by simpa using hpa)]
      exact ih h

theorem check_stock_ok (db : DB) (items : List OrderDetail)
    (puOf : OrderDetail → ProductUnit)
    (hprod : ∀ i ∈ items, (getProduct db i.product_id).isSome = true)
    (hunit : ∀ i ∈ items, getUnit db i.product_unit_id = some (puOf i))
    (hstock : ∀ i ∈ items,
      requiredFloat i.quantity (puOf i).conversion_factor ≤ current_stock db i.product_id) :
    check_stock db items = Except.ok () := by
  induction items with
  | nil => rfl
  | cons a l ih =>
    obtain ⟨p, hp⟩ := Option.isSome_iff_exists.mp (hprod a (by simp))
    rw [check_stock, hp, hunit a (by simp)]
    dsimp only
    rw [if_neg (not_lt.mpr (hstock a (by simp)))]
    exact ih (fun i hi => hprod i (by simp [hi])) (fun i hi => hunit i (by simp [hi]))
      (fun i hi => hstock i (by simp [hi]))

theorem check_stock_insufficient (db : DB) (items : List OrderDetail)
    (puOf : OrderDetail → ProductUnit)
    (hprod : ∀ i ∈ items, (getProduct db i.product_id).isSome = true)
    (hunit : ∀ i ∈ items, getUnit db i.product_unit_id = some (puOf i))
    (hbad : ∃ i ∈ items,
      current_stock db i.product_id < requiredFloat i.quantity (puOf i).conversion_factor) :
    check_stock db items = Except.error Err.InsufficientStockError := by
  induction items with
  | nil => simp at hbad
  | cons a l ih =>
    obtain ⟨p, hp⟩ := Option.isSome_iff_exists.mp (hprod a (by simp))
    rw [check_stock, hp, hunit a (by simp)]
    dsimp only
    by_cases hlt : current_stock db a.product_id < requiredFloat a.quantity (puOf a).conversion_factor
    · rw [if_pos hlt]
    · rw [if_neg hlt]
      refine ih (fun i hi => hprod i (by simp [hi])) (fun i hi => hunit i (by simp [hi])) ?_
      obtain ⟨i, hi, hbi⟩ := hbad
      rcases List.mem_cons.mp hi with rfl | hil
      · exact absurd hbi hlt
      · exact ⟨i, hil, hbi⟩

theorem deduct_inventory_eq (db : DB) (order : Order) (user_id : Nat)
    (items : List OrderDetail) (puOf : OrderDetail → ProductUnit)
    (hunit : ∀ i ∈ items, getUnit db i.product_unit_id = some (puOf i)) :
    deduct_inventory db order user_id items =
      Except.ok (items.map (fun i => stock_out_transaction order user_id i (puOf i))) := by
  induction items with
  | nil => rfl
  | cons a l ih =>
    rw [deduct_inventory, hunit a (by simp), ih (fun i hi => hunit i (by simp [hi]))]
    simp

theorem restore_inventory_eq (db : DB) (order : Order) (user_id : Nat)
    (items : List OrderDetail) (puOf : OrderDetail → ProductUnit)
    (hunit : ∀ i ∈ items, getUnit db i.product_unit_id = some (puOf i)) :
    restore_inventory db order user_id items =
      Except.ok (items.map (fun i => stock_in_transaction order user_id i (puOf i))) := by
  induction items with
  | nil => rfl
  | cons a l ih =>
    rw [restore_inventory, hunit a (by simp), ih (fun i hi => hunit i (by simp [hi]))]
    simp

/-! Claim theorems. -/

/-- C8: `reduce_debt` yields `max(0, balance - amount)`: the resulting
balance is never negative, and a second application of the same reduction
still leaves a non-negative balance (clamped at zero). -/
theorem reduce_debt_clamps (c : Customer) (a : ℚ)
    (hx : 0 ≤ c.debt_balance) (ha : 0 ≤ a) :
    (c.reduce_debt a).debt_balance = max 0 (c.debt_balance - a) ∧
    0 ≤ (c.reduce_debt a).debt_balance ∧
    0 ≤ ((c.reduce_debt a).reduce_debt a).debt_balance := by
  refine ⟨rfl, ?_, ?_⟩ <;> simp [Customer.reduce_debt]

/-- Witness for C8 at balance 5, amount 8: the clamped balance is 0, not -3. -/
theorem reduce_debt_clamps_witness :
    0 ≤ exCustomer8.debt_balance ∧ (0:ℚ) ≤ 8 ∧
    ((exCustomer8.reduce_debt 8).debt_balance = max 0 (exCustomer8.debt_balance - 8) ∧
      0 ≤ (exCustomer8.reduce_debt 8).debt_balance ∧
      0 ≤ ((exCustomer8.reduce_debt 8).reduce_debt 8).debt_balance) :=
  ⟨by decide, by decide, reduce_debt_clamps exCustomer8 8 (by decide) (by decide)⟩

/-- C10: when `create_order` is given a customer id, the lookup is filtered
by both the id and the order's store; a customer id that exists only under a
different store yields NotFound and no order is created (the operation
returns no successor state). -/
theorem create_order_rejects_foreign_customer
    (db : DB) (store_id : Nat) (items : List ItemInput) (u : User) (cid : Nat)
    (is_credit : Bool) (notes : Option String) (oid : Nat) (onum : String)
    (hacc : u.can_access_store store_id = true)
    (hex : ∃ c ∈ db.customers, c.id = cid)
    (hforeign : ∀ c ∈ db.customers, c.id = cid → c.store_id ≠ store_id) :
    create_order db store_id items u (some cid) is_credit notes oid onum =
      Except.error Err.NotFoundError := by
  have hfind : db.customers.find? (fun c => c.id == cid && c.store_id == store_id) = none := by
    rw [List.find?_eq_none]
    intro c hc hpc
    simp only [Bool.and_eq_true, beq_iff_eq] at hpc
    exact hforeign c hc hpc.1 hpc.2
  simp [create_order, hacc, hfind]

/-- Witness for C10: customer 7 exists but belongs to store 2; creating a
(credit) order in store 1 that names customer 7 is rejected with NotFound. -/
theorem create_order_rejects_foreign_customer_witness :
    exUser.can_access_store 1 = true ∧
    (∃ c ∈ c10db.customers, c.id = 7) ∧
    (∀ c ∈ c10db.customers, c.id = 7 → c.store_id ≠ 1) ∧
    create_order c10db 1 [] exUser (some 7) true none 1 "X" =
      Except.error Err.NotFoundError :=
  ⟨by decide, by decide, by decide,
    create_order_rejects_foreign_customer c10db 1 [] exUser 7 true none 1 "X"
      (by decide) (by decide) (by decide)⟩

/-- C1 (amended): confirming an accessible NEW order in which at least one
line needs more base units than the product's current stock — the
requirement computed, as the program computes it at line 129, as the
binary64 product `float(quantity) * float(conversion_factor)`
(`requiredFloat`) — fails with InsufficientStock, and no successor state
is produced: the error return models the aborted transaction, so no
movement is written for any line, no ledger entry is created, no debt
balance changes, and the order stays NEW. -/
theorem confirm_order_insufficient_stock_aborts
    (db : DB) (oid : Nat) (u : User) (now : Nat) (order : Order)
    (puOf : OrderDetail → ProductUnit)
    (hfind : findOrder db oid = some order)
    (hacc : u.can_access_store order.store_id = true)
    (hnew : order.status = OrderStatus.NEW)
    (hprod : ∀ i ∈ orderItems db oid, (getProduct db i.product_id).isSome = true)
    (hunit : ∀ i ∈ orderItems db oid, getUnit db i.product_unit_id = some (puOf i))
    (hbad : ∃ i ∈ orderItems db oid,
      current_stock db i.product_id < requiredFloat i.quantity (puOf i).conversion_factor) :
    confirm_order db oid u now = Except.error Err.InsufficientStockError ∧
    ∀ db2, confirm_order db oid u now ≠ Except.ok db2 := by
  have hcs := check_stock_insufficient db (orderItems db oid) puOf hprod hunit hbad
  have hmain : confirm_order db oid u now = Except.error Err.InsufficientStockError := by
    simp [confirm_order, hfind, hacc, hnew, hcs]
  exact ⟨hmain, fun db2 h => by rw [hmain] at h; exact Except.noConfusion h⟩

/-- Witness for C1: the order of `c1db` needs 5 base units but stock is 3;
confirmation fails with InsufficientStock. -/
theorem confirm_order_insufficient_stock_aborts_witness :
    findOrder c1db 1 = some c1order ∧
    exUser.can_access_store c1order.store_id = true ∧
    c1order.status = OrderStatus.NEW ∧
    (∀ i ∈ orderItems c1db 1, (getProduct c1db i.product_id).isSome = true) ∧
    (∀ i ∈ orderItems c1db 1, getUnit c1db i.product_unit_id = some exUnit) ∧
    (∃ i ∈ orderItems c1db 1,
      current_stock c1db i.product_id < requiredFloat i.quantity exUnit.conversion_factor) ∧
    (confirm_order c1db 1 exUser 0 = Except.error Err.InsufficientStockError ∧
      ∀ db2, confirm_order c1db 1 exUser 0 ≠ Except.ok db2) :=
  ⟨by decide, by decide, by decide, by decide, by decide, by decide,
    confirm_order_insufficient_stock_aborts c1db 1 exUser 0 c1order (fun _ => exUnit)
      (by decide) (by decide) (by decide) (by decide) (by decide) (by decide)⟩

/-- Counterexample to C1 as stated: in `c1xdb` the exact base-unit
requirement 316227.7899 * 3162.3089 = 1000009954.42810011 exceeds the
stock 1000009954.4281, yet the program confirms the order, because the
binary64 product it actually computes rounds below the stock.  The exact
reading of the claim is therefore false on the code. -/
theorem confirm_order_insufficient_stock_aborts_counterexample :
    current_stock c1xdb 1 < c1xdetail.quantity * c1xunit.conversion_factor ∧
    findOrder c1xdb 1 = some c1xorder ∧
    c1xorder.status = OrderStatus.NEW ∧
    (confirm_order c1xdb 1 exUser 0).isOk = true := by decide

/-- C2 (amended): confirming an accessible NEW order whose lines all pass
the program's binary64 stock check writes exactly one negative movement
per line (qty_change equal to minus the binary64 product
`float(quantity) * float(conversion_factor)`, ref_type "order",
referencing the order id — see `stock_out_transaction`), appends exactly
one ledger entry for the order total (a DEBT_IN entry for a credit sale,
a REVENUE entry otherwise), increases the customer's debt balance by the
total for a credit sale (customers untouched otherwise), and sets the
order status to CONFIRMED with the confirming user's id and the
timestamp. -/
theorem confirm_order_success
    (db : DB) (oid : Nat) (u : User) (now : Nat) (order : Order)
    (puOf : OrderDetail → ProductUnit) (cid : Nat) (customer : Customer)
    (hfind : findOrder db oid = some order)
    (hacc : u.can_access_store order.store_id = true)
    (hnew : order.status = OrderStatus.NEW)
    (hprod : ∀ i ∈ orderItems db oid, (getProduct db i.product_id).isSome = true)
    (hunit : ∀ i ∈ orderItems db oid, getUnit db i.product_unit_id = some (puOf i))
    (hstock : ∀ i ∈ orderItems db oid,
      requiredFloat i.quantity (puOf i).conversion_factor ≤ current_stock db i.product_id)
    (hcust : order.is_credit = true →
      order.customer_id = some cid ∧ getCustomer db cid = some customer) :
    ∃ db2, confirm_order db oid u now = Except.ok db2 ∧
      db2.inventory_transactions = db.inventory_transactions ++
        (orderItems db oid).map (fun i => stock_out_transaction order u.id i (puOf i)) ∧
      db2.bookkeeping_entries = db.bookkeeping_entries ++
        [if order.is_credit then
            create_debt_entry order.store_id order.id order.total_amount u.id
          else create_revenue_entry order.store_id order.id order.total_amount u.id] ∧
      (order.is_credit = true →
        (getCustomer db2 cid).map Customer.debt_balance =
          some (customer.debt_balance + order.total_amount)) ∧
      (order.is_credit = false → db2.customers = db.customers) ∧
      findOrder db2 oid = some (order.confirm u.id now) := by
  have hcs := check_stock_ok db (orderItems db oid) puOf hprod hunit hstock
  have hded := deduct_inventory_eq db order u.id (orderItems db oid) puOf hunit
  refine ⟨{ db with
      customers :=
        if order.is_credit then
          match order.customer_id.bind (getCustomer db) with
          | some cst =>
            updateCustomer db.customers cst.id (fun c => c.add_debt order.total_amount)
          | none => db.customers
        else db.customers
      orders := updateOrder db.orders oid (fun o => o.confirm u.id now)
      inventory_transactions := db.inventory_transactions ++
        (orderItems db oid).map (fun i => stock_out_transaction order u.id i (puOf i))
      bookkeeping_entries := db.bookkeeping_entries ++
        [if order.is_credit then
            create_debt_entry order.store_id order.id order.total_amount u.id
          else create_revenue_entry order.store_id order.id order.total_amount u.id] },
    ?_, rfl, rfl, ?_, ?_, ?_⟩
  · simp only [confirm_order, hfind, hacc, hnew]
    simp only [hcs, hded]
    rfl
  · intro hic
    obtain ⟨hcid, hget⟩ := hcust hic
    have hfind2 : db.customers.find? (fun x => x.id == cid) = some customer := hget
    have hcustid : customer.id = cid := by simpa using List.find?_some hfind2
    simp only [hic, if_true, hcid, Option.some_bind, hget, getCustomer]
    rw [hfind2]
    dsimp only
    rw [hcustid, find?_updateCustomer db.customers cid
      (fun c => c.add_debt order.total_amount) (fun c => rfl) customer hfind2]
    rfl
  · intro hic
    simp [hic]
  · show (updateOrder db.orders oid (fun o => o.confirm u.id now)).find?
      (fun x => x.id == oid) = some (order.confirm u.id now)
    exact find?_updateOrder db.orders oid (fun o => o.confirm u.id now)
      (fun o => rfl) order hfind

/-- Witness for C2: confirming the credit order of `c2db` (stock 10, need 5,
customer balance 20, total 50). -/
theorem confirm_order_success_witness :
    findOrder c2db 1 = some c2order ∧
    exUser.can_access_store c2order.store_id = true ∧
    c2order.status = OrderStatus.NEW ∧
    (∀ i ∈ orderItems c2db 1, (getProduct c2db i.product_id).isSome = true) ∧
    (∀ i ∈ orderItems c2db 1, getUnit c2db i.product_unit_id = some exUnit) ∧
    (∀ i ∈ orderItems c2db 1,
      requiredFloat i.quantity exUnit.conversion_factor ≤ current_stock c2db i.product_id) ∧
    (c2order.is_credit = true →
      c2order.customer_id = some 1 ∧ getCustomer c2db 1 = some c2customer) ∧
    (∃ db2, confirm_order c2db 1 exUser 9 = Except.ok db2 ∧
      db2.inventory_transactions = c2db.inventory_transactions ++
        (orderItems c2db 1).map
          (fun i => stock_out_transaction c2order exUser.id i exUnit) ∧
      db2.bookkeeping_entries = c2db.bookkeeping_entries ++
        [if c2order.is_credit then
            create_debt_entry c2order.store_id c2order.id c2order.total_amount exUser.id
          else create_revenue_entry c2order.store_id c2order.id c2order.total_amount exUser.id] ∧
      (c2order.is_credit = true →
        (getCustomer db2 1).map Customer.debt_balance =
          some (c2customer.debt_balance + c2order.total_amount)) ∧
      (c2order.is_credit = false → db2.customers = c2db.customers) ∧
      findOrder db2 1 = some (c2order.confirm exUser.id 9)) :=
  ⟨by decide, by decide, by decide, by decide, by decide, by decide, by decide,
    confirm_order_success c2db 1 exUser 9 c2order (fun _ => exUnit) 1 c2customer
      (by decide) (by decide) (by decide) (by decide) (by decide) (by decide) (by decide)⟩

/-- Counterexample to C2 as stated: in `c2xdb` every line passes the exact
feasibility check (exact requirement 0.3 equals the stock 0.3), yet the
program does not confirm: the binary64 requirement it computes is
0.30000000000000004, above the stock, so it raises InsufficientStock.
The claim with the exact-arithmetic check and exact movement magnitudes
is therefore false on the code. -/
theorem confirm_order_success_counterexample :
    (∀ i ∈ orderItems c2xdb 1,
      i.quantity * c2xunit.conversion_factor ≤ current_stock c2xdb i.product_id) ∧
    findOrder c2xdb 1 = some c2xorder ∧
    c2xorder.status = OrderStatus.NEW ∧
    thrown (confirm_order c2xdb 1 exUser 0) = some Err.InsufficientStockError := by decide

theorem apply_cancel_reason_id (reason : Option String) (o : Order) :
    (apply_cancel_reason reason o).id = o.id := by
  cases reason <;> rfl

theorem apply_cancel_reason_status (reason : Option String) (o : Order) :
    (apply_cancel_reason reason o).status = o.status := by
  cases reason <;> rfl

/-- C4 (amended): canceling an accessible CONFIRMED order writes one
positive movement per line whose magnitude is the original deduction —
the binary64 product `float(quantity) * float(conversion_factor)`, the
same formula as the deduction at confirmation (ref_type "order_cancel",
referencing the order — see `stock_in_transaction`) — and for a credit
sale sets the customer's balance to `max 0 (B - T)`: `B - T` when
`B ≥ T` and exactly 0 when `B < T`, never negative.  Canceling a NEW
order writes no movements and changes no customer balance.  In both cases
no ledger entry is written and the order's status becomes CANCELED. -/
theorem cancel_order_spec
    (db : DB) (oid : Nat) (u : User) (reason : Option String) (order : Order)
    (puOf : OrderDetail → ProductUnit) (cid : Nat) (customer : Customer)
    (hfind : findOrder db oid = some order)
    (hacc : u.can_access_store order.store_id = true)
    (hstatus : order.status = OrderStatus.CONFIRMED ∨ order.status = OrderStatus.NEW)
    (hunit : ∀ i ∈ orderItems db oid, getUnit db i.product_unit_id = some (puOf i))
    (hcust : order.is_credit = true →
      order.customer_id = some cid ∧ getCustomer db cid = some customer) :
    ∃ db2, cancel_order db oid u reason = Except.ok db2 ∧
      db2.bookkeeping_entries = db.bookkeeping_entries ∧
      (findOrder db2 oid).map Order.status = some OrderStatus.CANCELED ∧
      (order.status = OrderStatus.CONFIRMED →
        db2.inventory_transactions = db.inventory_transactions ++
          (orderItems db oid).map (fun i => stock_in_transaction order u.id i (puOf i)) ∧
        (order.is_credit = true →
          (getCustomer db2 cid).map Customer.debt_balance =
            some (max 0 (customer.debt_balance - order.total_amount)) ∧
          (order.total_amount ≤ customer.debt_balance →
            (getCustomer db2 cid).map Customer.debt_balance =
              some (customer.debt_balance - order.total_amount)) ∧
          (customer.debt_balance < order.total_amount →
            (getCustomer db2 cid).map Customer.debt_balance = some 0)) ∧
        (order.is_credit = false → db2.customers = db.customers)) ∧
      (order.status = OrderStatus.NEW →
        db2.inventory_transactions = db.inventory_transactions ∧
        db2.customers = db.customers) := by
  rcases hstatus with h | h
  · have hres := restore_inventory_eq db order u.id (orderItems db oid) puOf hunit
    refine ⟨{ db with
        customers :=
          if order.is_credit then
            match order.customer_id.bind (getCustomer db) with
            | some cst =>
              updateCustomer db.customers cst.id (fun c => c.reduce_debt order.total_amount)
            | none => db.customers
          else db.customers
        orders := updateOrder db.orders oid (fun o => apply_cancel_reason reason o.cancel)
        inventory_transactions := db.inventory_transactions ++
          (orderItems db oid).map (fun i => stock_in_transaction order u.id i (puOf i)) },
      ?_, rfl, ?_, ?_, ?_⟩
    · simp only [cancel_order, hfind, hacc, h]
      simp only [hres]
      rfl
    · rw [show findOrder
          { db with
            customers :=
              if order.is_credit then
                match order.customer_id.bind (getCustomer db) with
                | some cst =>
                  updateCustomer db.customers cst.id
                    (fun c => c.reduce_debt order.total_amount)
                | none => db.customers
              else db.customers
            orders := updateOrder db.orders oid (fun o => apply_cancel_reason reason o.cancel)
            inventory_transactions := db.inventory_transactions ++
              (orderItems db oid).map (fun i => stock_in_transaction order u.id i (puOf i)) }
          oid = (updateOrder db.orders oid
            (fun o => apply_cancel_reason reason o.cancel)).find? (fun x => x.id == oid)
          from rfl]
      rw [find?_updateOrder db.orders oid (fun o => apply_cancel_reason reason o.cancel)
        (fun o => by rw [apply_cancel_reason_id]; rfl) order hfind]
      simp [apply_cancel_reason_status, Order.cancel]
    · intro _
      refine ⟨rfl, ?_, ?_⟩
      · intro hic
        obtain ⟨hcid, hget⟩ := hcust hic
        have hfind2 : db.customers.find? (fun x => x.id == cid) = some customer := hget
        have hcustid : customer.id = cid := by simpa using List.find?_some hfind2
        have hbal : (getCustomer
            { db with
              customers :=
                if order.is_credit then
                  match order.customer_id.bind (getCustomer db) with
                  | some cst =>
                    updateCustomer db.customers cst.id
                      (fun c => c.reduce_debt order.total_amount)
                  | none => db.customers
                else db.customers
              orders := updateOrder db.orders oid
                (fun o => apply_cancel_reason reason o.cancel)
              inventory_transactions := db.inventory_transactions ++
                (orderItems db oid).map
                  (fun i => stock_in_transaction order u.id i (puOf i)) } cid).map
            Customer.debt_balance =
            some (max 0 (customer.debt_balance - order.total_amount)) := by
          simp only [hic, if_true, hcid, Option.some_bind, hget, getCustomer]
          rw [hfind2]
          dsimp only
          rw [hcustid, find?_updateCustomer db.customers cid
            (fun c => c.reduce_debt order.total_amount) (fun c => rfl) customer hfind2]
          rfl
        refine ⟨hbal, ?_, ?_⟩
        · intro hle
          rw [hbal, max_eq_right (sub_nonneg.mpr hle)]
        · intro hlt
          rw [hbal, max_eq_left (le_of_lt (sub_neg.mpr hlt))]
      · intro hic
        simp [hic]
    · intro hnn
      rw [h] at hnn
      exact OrderStatus.noConfusion hnn
  · refine ⟨{ db with
        orders := updateOrder db.orders oid (fun o => apply_cancel_reason reason o.cancel)
        inventory_transactions := db.inventory_transactions ++ [] },
      ?_, rfl, ?_, ?_, ?_⟩
    · simp only [cancel_order, hfind, hacc, h]
      rfl
    · rw [show findOrder
          { db with
            orders := updateOrder db.orders oid (fun o => apply_cancel_reason reason o.cancel)
            inventory_transactions := db.inventory_transactions ++ [] }
          oid = (updateOrder db.orders oid
            (fun o => apply_cancel_reason reason o.cancel)).find? (fun x => x.id == oid)
          from rfl]
      rw [find?_updateOrder db.orders oid (fun o => apply_cancel_reason reason o.cancel)
        (fun o => by rw [apply_cancel_reason_id]; rfl) order hfind]
      simp [apply_cancel_reason_status, Order.cancel]
    · intro hcc
      rw [h] at hcc
      exact OrderStatus.noConfusion hcc
    · intro _
      exact ⟨by simp, rfl⟩

/-- Witness for C4: canceling the confirmed credit order of `c4db`
(customer balance 30, total 50) with a reason. -/
theorem cancel_order_spec_witness :
    findOrder c4db 1 = some c4order ∧
    exUser.can_access_store c4order.store_id = true ∧
    (c4order.status = OrderStatus.CONFIRMED ∨ c4order.status = OrderStatus.NEW) ∧
    (∀ i ∈ orderItems c4db 1, getUnit c4db i.product_unit_id = some exUnit) ∧
    (c4order.is_credit = true →
      c4order.customer_id = some 1 ∧ getCustomer c4db 1 = some c4customer) ∧
    (∃ db2, cancel_order c4db 1 exUser (some "late") = Except.ok db2 ∧
      db2.bookkeeping_entries = c4db.bookkeeping_entries ∧
      (findOrder db2 1).map Order.status = some OrderStatus.CANCELED ∧
      (c4order.status = OrderStatus.CONFIRMED →
        db2.inventory_transactions = c4db.inventory_transactions ++
          (orderItems c4db 1).map
            (fun i => stock_in_transaction c4order exUser.id i exUnit) ∧
        (c4order.is_credit = true →
          (getCustomer db2 1).map Customer.debt_balance =
            some (max 0 (c4customer.debt_balance - c4order.total_amount)) ∧
          (c4order.total_amount ≤ c4customer.debt_balance →
            (getCustomer db2 1).map Customer.debt_balance =
              some (c4customer.debt_balance - c4order.total_amount)) ∧
          (c4customer.debt_balance < c4order.total_amount →
            (getCustomer db2 1).map Customer.debt_balance = some 0)) ∧
        (c4order.is_credit = false → db2.customers = c4db.customers)) ∧
      (c4order.status = OrderStatus.NEW →
        db2.inventory_transactions = c4db.inventory_transactions ∧
        db2.customers = c4db.customers)) :=
  ⟨by decide, by decide, by decide, by decide, by decide,
    cancel_order_spec c4db 1 exUser (some "late") c4order (fun _ => exUnit) 1 c4customer
      (by decide) (by decide) (by decide) (by decide) (by decide)⟩

/-- Counterexample to C4 as stated: canceling the confirmed order of
`c4xdb` (quantity 0.1, factor 3) appends a restore movement whose
qty_change is the binary64 product 0.30000000000000004 — equal in
magnitude to the original deduction the program computed, but not equal
to the exact quantity times conversion factor 0.3 claimed. -/
theorem cancel_order_spec_counterexample :
    ((cancel_order c4xdb 1 exUser none).toOption.map
      (fun db2 => db2.inventory_transactions.map (fun t => t.qty_change))) =
      some [requiredFloat c2xdetail.quantity c2xunit.conversion_factor] ∧
    requiredFloat c2xdetail.quantity c2xunit.conversion_factor ≠
      c2xdetail.quantity * c2xunit.conversion_factor ∧
    requiredFloat c2xdetail.quantity c2xunit.conversion_factor =
      -(stock_out_transaction c4xorder exUser.id c2xdetail c2xunit).qty_change := by decide

/-- C3 (amended): the store query `get_product_stock` sums `qty_change` over
exactly the movements of the product recorded in the given store — a
movement of the same product under a different store id does not change its
value — but `Product.current_stock`, the value `check_stock` (the
confirmation feasibility check) compares against, does count that foreign
movement: it is the sum over all of the product's movements regardless of
store id.  There is no mutable stock field in the model. -/
theorem stock_query_scoping
    (db : DB) (t : InventoryTransaction) (sid pid : Nat)
    (hpid : t.product_id = pid) (hsid : t.store_id ≠ sid) :
    get_product_stock { db with inventory_transactions := t :: db.inventory_transactions }
        sid pid = get_product_stock db sid pid ∧
    current_stock { db with inventory_transactions := t :: db.inventory_transactions }
        pid = t.qty_change + current_stock db pid := by
  constructor
  · simp [get_product_stock, List.filter_cons, hsid]
  · simp [current_stock, List.filter_cons, hpid]

/-- Witness for the amended C3: the foreign-store movement `c3foreign` on
top of `c1db` leaves `get_product_stock` unchanged at 3 but raises
`current_stock` from 3 to 10. -/
theorem stock_query_scoping_witness :
    c3foreign.product_id = 1 ∧ c3foreign.store_id ≠ 1 ∧
    (get_product_stock
        { c1db with inventory_transactions := c3foreign :: c1db.inventory_transactions }
        1 1 = get_product_stock c1db 1 1 ∧
      current_stock
        { c1db with inventory_transactions := c3foreign :: c1db.inventory_transactions }
        1 = c3foreign.qty_change + current_stock c1db 1) :=
  ⟨by decide, by decide, stock_query_scoping c1db c3foreign 1 1 (by decide) (by decide)⟩

/-- Counterexample to C3 as stated: in `c3db` the store-scoped stock of
product 1 in the order's store is 0, yet confirming the 3-unit order
succeeds, because the feasibility check compares against
`Product.current_stock`, which also counts the 5 units recorded under
store 2.  Were the check store-scoped as claimed, it would have failed
with InsufficientStock. -/
theorem stock_query_scoping_counterexample :
    get_product_stock c3db 1 1 = 0 ∧
    current_stock c3db 1 = 5 ∧
    (orderItems c3db 1).map OrderDetail.quantity = [3] ∧
    (confirm_order c3db 1 exUser 0).isOk = true := by decide

/-- C5: `confirm_order` never consults the debt limit.  In `c5db` the
customer (balance 50, limit 100) fails `can_add_debt 60`, yet confirmation
of the credit order of total 60 succeeds — it does not raise
InsufficientBalance — and leaves the balance at 110, over the limit.  The
claimed guard exists in the model layer (`Customer.can_add_debt`) and the
error type exists (`InsufficientBalanceError`), but the service never
calls them. -/
theorem confirm_order_no_debt_limit_check :
    c5customer.can_add_debt c5order.total_amount = false ∧
    (confirm_order c5db 1 exUser 0).isOk = true ∧
    ((confirm_order c5db 1 exUser 0).toOption.bind
      (fun db2 => (getCustomer db2 1).map Customer.debt_balance)) = some 110 := by decide

/-- C6 (amended): confirming any accessible order that is not NEW (so
CONFIRMED, COMPLETED or CANCELED) fails with OrderAlreadyConfirmed, and
canceling a COMPLETED order fails with ValidationError; canceling an
already-CANCELED order, however, succeeds and re-sets the status to
CANCELED, so the status of a COMPLETED or CANCELED order never moves away
from that terminal value, although cancel on CANCELED is not a failure. -/
theorem terminal_status_transitions
    (db : DB) (oid : Nat) (u : User) (now : Nat) (reason : Option String) :
    (∀ order, findOrder db oid = some order →
      u.can_access_store order.store_id = true →
      order.status ≠ OrderStatus.NEW →
      confirm_order db oid u now = Except.error Err.OrderAlreadyConfirmedError) ∧
    (∀ order, findOrder db oid = some order →
      u.can_access_store order.store_id = true →
      order.status = OrderStatus.COMPLETED →
      cancel_order db oid u reason = Except.error Err.ValidationError) ∧
    (∀ order, findOrder db oid = some order →
      u.can_access_store order.store_id = true →
      order.status = OrderStatus.CANCELED →
      ∃ db2, cancel_order db oid u reason = Except.ok db2 ∧
        (findOrder db2 oid).map Order.status = some OrderStatus.CANCELED) := by
  refine ⟨?_, ?_, ?_⟩
  · intro order hfind hacc hnn
    simp only [confirm_order, hfind]
    rw [if_neg (by simp [hacc]), if_pos hnn]
  · intro order hfind hacc hcomp
    simp only [cancel_order, hfind]
    rw [if_neg (by simp [hacc]), if_pos hcomp]
  · intro order hfind hacc hcanc
    refine ⟨{ db with
        orders := updateOrder db.orders oid (fun o => apply_cancel_reason reason o.cancel)
        inventory_transactions := db.inventory_transactions ++ [] },
      ?_, ?_⟩
    · simp only [cancel_order, hfind, hacc, hcanc]
      rfl
    · rw [show findOrder
          { db with
            orders := updateOrder db.orders oid (fun o => apply_cancel_reason reason o.cancel)
            inventory_transactions := db.inventory_transactions ++ [] }
          oid = (updateOrder db.orders oid
            (fun o => apply_cancel_reason reason o.cancel)).find? (fun x => x.id == oid)
          from rfl]
      rw [find?_updateOrder db.orders oid (fun o => apply_cancel_reason reason o.cancel)
        (fun o => by rw [apply_cancel_reason_id]; rfl) order hfind]
      simp [apply_cancel_reason_status, Order.cancel]

/-- Witness for the amended C6: confirming the CANCELED order of `c6db`
fails, canceling the COMPLETED order of `c6done_db` fails, and canceling
the CANCELED order of `c6db` succeeds with the status still CANCELED. -/
theorem terminal_status_transitions_witness :
    confirm_order c6db 1 exUser 0 = Except.error Err.OrderAlreadyConfirmedError ∧
    cancel_order c6done_db 1 exUser none = Except.error Err.ValidationError ∧
    (∃ db2, cancel_order c6db 1 exUser none = Except.ok db2 ∧
      (findOrder db2 1).map Order.status = some OrderStatus.CANCELED) :=
  ⟨(terminal_status_transitions c6db 1 exUser 0 none).1 c6order
      (by decide) (by decide) (by decide),
    (terminal_status_transitions c6done_db 1 exUser 0 none).2.1 c6done_order
      (by decide) (by decide) (by decide),
    (terminal_status_transitions c6db 1 exUser 0 none).2.2 c6order
      (by decide) (by decide) (by decide)⟩

/-- Counterexample to C6 as stated: canceling the already-CANCELED order of
`c6db` does not fail — it returns success. -/
theorem terminal_status_transitions_counterexample :
    c6order.status = OrderStatus.CANCELED ∧
    findOrder c6db 1 = some c6order ∧
    (cancel_order c6db 1 exUser none).isOk = true := by decide

/-- C7: the stock feasibility arithmetic of `confirm_order` is computed in
binary64 floating point, not exact decimal arithmetic.  For a line of
quantity 0.1 in a unit with conversion factor 3, the float computation
`requiredFloat` yields a value strictly above the exact product 0.3, so
against a stock of exactly 0.3 the code's comparison `stock < required`
fires (raising InsufficientStock) while the exact comparison does not. -/
theorem confirm_stock_arithmetic_uses_floats :
    requiredFloat (1/10) 3 ≠ (1/10 : ℚ) * 3 ∧
    (1/10 : ℚ) * 3 < requiredFloat (1/10) 3 ∧
    ((3:ℚ)/10 < requiredFloat (1/10) 3 ∧ ¬ ((3:ℚ)/10 < (1/10 : ℚ) * 3)) := by decide

/-- C9: `create_order` performs no validation of line quantities.  With a
single line of quantity -1 the operation succeeds — it does not raise
ValidationError — and persists the order with that line and a negative
total (-1 times the unit price 10). -/
theorem create_order_accepts_nonpositive_quantity :
    (create_order c9db 1 c9items exUser none false none 1 "ORD0010009").isOk = true ∧
    ((create_order c9db 1 c9items exUser none false none 1 "ORD0010009").toOption.map
      (fun r => (r.2.total_amount, (orderItems r.1 1).map OrderDetail.quantity))) =
      some (-10, [-1]) := by decide

end BizFlow
